import Mathlib

/-!
Shallow embedding of the portfolio-site gallery/lightbox scripts
(`src/assets/scripts/utils.js`, `gallery.js`, `a11y.js`, `lightbox.js`).

The DOM is modelled as a tree of elements (`Elem`); `querySelectorAll`
returns the pre-order (document-order) list of strict descendants that
match a predicate, and `querySelector` the first such.  JavaScript's
`||` on strings/null is modelled by `jsOr` with JS truthiness (both
`null`/`undefined` and the empty string are falsy).
-/

namespace Webdev

/-- A DOM element: tag name, attribute list, class list, textContent,
and child elements in document order. -/
inductive Elem where
  | mk (tag : String) (attrs : List (String × String)) (classes : List String)
       (text : String) (children : List Elem)

mutual

def elemBEq : Elem → Elem → Bool
  | .mk t a c s cs, .mk u b d r ds =>
    t == u && a == b && c == d && s == r && elemBEqList cs ds

def elemBEqList : List Elem → List Elem → Bool
  | [], [] => true
  | x :: xs, y :: ys => elemBEq x y && elemBEqList xs ys
  | [], _ :: _ => false
  | _ :: _, [] => false

end

mutual

theorem elemBEq_eq : ∀ a b : Elem, elemBEq a b = true → a = b
  | .mk t a c s cs, .mk u b d r ds, h => by
    simp only [elemBEq, Bool.and_eq_true, beq_iff_eq] at h
    obtain ⟨⟨⟨⟨h1, h2⟩, h3⟩, h4⟩, h5⟩ := h
    subst h1; subst h2; subst h3; subst h4
    exact congrArg _ (elemBEqList_eq cs ds h5)

theorem elemBEqList_eq : ∀ xs ys : List Elem, elemBEqList xs ys = true → xs = ys
  | [], [], _ => rfl
  | x :: xs, y :: ys, h => by
    simp only [elemBEqList, Bool.and_eq_true] at h
    exact congrArg₂ _ (elemBEq_eq x y h.1) (elemBEqList_eq xs ys h.2)

end

mutual

theorem elemBEq_rfl : ∀ a : Elem, elemBEq a a = true
  | .mk _ _ _ _ cs => by
    simp [elemBEq, elemBEqList_rfl cs]

theorem elemBEqList_rfl : ∀ xs : List Elem, elemBEqList xs xs = true
  | [] => rfl
  | x :: xs => by
    simp only [elemBEqList, Bool.and_eq_true]
    exact ⟨elemBEq_rfl x, elemBEqList_rfl xs⟩

end

instance : DecidableEq Elem := fun a b =>
  if h : elemBEq a b = true then .isTrue (elemBEq_eq a b h)
  else .isFalse (fun he => h (he ▸ elemBEq_rfl a))

def Elem.tag : Elem → String
  | .mk t _ _ _ _ => t

def Elem.attrs : Elem → List (String × String)
  | .mk _ a _ _ _ => a

def Elem.classes : Elem → List String
  | .mk _ _ c _ _ => c

def Elem.text : Elem → String
  | .mk _ _ _ s _ => s

def Elem.children : Elem → List Elem
  | .mk _ _ _ _ cs => cs

/-- `getAttribute`: first binding of the attribute name, `none` when absent
(JS returns `null`). -/
def Elem.getAttribute (e : Elem) (name : String) : Option String :=
  e.attrs.lookup name

def Elem.hasAttr (e : Elem) (name : String) : Bool :=
  (e.getAttribute name).isSome

def Elem.hasClass (e : Elem) (c : String) : Bool :=
  e.classes.contains c

mutual

/-- Strict descendants of an element in document (pre-) order. -/
def descendants : Elem → List Elem
  | .mk _ _ _ _ cs => descendantsList cs

def descendantsList : List Elem → List Elem
  | [] => []
  | c :: cs => c :: descendants c ++ descendantsList cs

end

/-- `root.querySelectorAll(sel)` for a selector modelled as a predicate:
matching descendants in document order (this is `qsa` in `utils.js`). -/
def qsaP (root : Elem) (p : Elem → Bool) : List Elem :=
  (descendants root).filter p

/-- `root.querySelector(sel)`: first matching descendant in document order. -/
def qsP (root : Elem) (p : Elem → Bool) : Option Elem :=
  (descendants root).find? p

/-- JS truthiness of a nullable string: `null`/`undefined` and `""` are falsy. -/
def truthy : Option String → Bool
  | none => false
  | some s => s ≠ ""

/-- JS `a || b` on nullable strings. -/
def jsOr (a b : Option String) : Option String :=
  if truthy a then a else b

/-- `gallery.js` `hydrateItems`: `qsa(grid, '[data-gallery-item]')`. -/
def galleryItems (grid : Elem) : List Elem :=
  qsaP grid (fun e => e.hasAttr "data-gallery-item")

/-- `lightbox.js` `hydrateItems`:
`qsa(grid, '[data-gallery-item], .gallery__item')`. -/
def lightboxItems (grid : Elem) : List Elem :=
  qsaP grid (fun e => e.hasAttr "data-gallery-item" || e.hasClass "gallery__item")

/-- `lightbox.js` `updateUI` image-source resolution:
`card.getAttribute('data-full') || imgEl?.getAttribute('data-full')
 || imgEl?.getAttribute('src') || card.querySelector('a')?.getAttribute('href')`. -/
def resolveSrc (card : Elem) : Option String :=
  let imgEl := qsP card (fun e => e.tag = "img")
  jsOr (card.getAttribute "data-full")
    (jsOr (imgEl.bind (fun i => i.getAttribute "data-full"))
      (jsOr (imgEl.bind (fun i => i.getAttribute "src"))
        ((qsP card (fun e => e.tag = "a")).bind (fun a => a.getAttribute "href"))))

/-- The fallback order asserted by the spec's testable property: the plain
nested image source is tried only AFTER the enclosing link's href
(href before `img src`).  Written from the spec's words, to be compared
with `resolveSrc`, which is written from the source. -/
def resolveSrcSpecOrder (card : Elem) : Option String :=
  let imgEl := qsP card (fun e => e.tag = "img")
  jsOr (card.getAttribute "data-full")
    (jsOr (imgEl.bind (fun i => i.getAttribute "data-full"))
      (jsOr ((qsP card (fun e => e.tag = "a")).bind (fun a => a.getAttribute "href"))
        (imgEl.bind (fun i => i.getAttribute "src"))))

/-- `updateUI` caption resolution:
`card.getAttribute('data-caption') || card.querySelector('.card__caption')?.textContent || ''`. -/
def resolveCaption (card : Elem) : String :=
  (jsOr (card.getAttribute "data-caption")
    (jsOr ((qsP card (fun e => e.hasClass "card__caption")).map Elem.text)
      (some ""))).getD ""

/-- `updateUI` alt resolution: `imgEl?.getAttribute('alt') || ''`. -/
def resolveAlt (card : Elem) : String :=
  (jsOr ((qsP card (fun e => e.tag = "img")).bind (fun i => i.getAttribute "alt"))
    (some "")).getD ""

/-- `utils.js` `nextIndex(i, len) = (i + 1) % len`
(JS `%` is truncating remainder, `Int.tmod`). -/
def nextIndex (i len : Int) : Int :=
  (i + 1).tmod len

/-- `utils.js` `prevIndex(i, len) = (i - 1 + len) % len`. -/
def prevIndex (i len : Int) : Int :=
  (i - 1 + len).tmod len

/-- A focus-trap handle returned by `trapFocus`: the id of the document-level
keydown listener it installed and the element focused at install time
(`prevActive`), which `releaseHandle()` refocuses. -/
structure Trap where
  id : Nat
  prevActive : Option Nat
deriving DecidableEq

/-- The lightbox system state: the module-level `refs` bundle and `state`
of `lightbox.js`, the `lastFocused` slot of `a11y.js`, the document's
focus/keydown-listener state, the relevant DOM attribute state, and the
shared live region.  Focusable elements are identified by `Nat` ids;
`activeElement = none` models no focused HTML element. -/
structure Sys where
  rootRef : Option Nat
  dialogRef : Option Nat
  closeBtnRef : Option Nat
  imgRef : Option Nat
  captionRef : Option Nat
  counterRef : Option Nat
  prevBtnRef : Option Nat
  nextBtnRef : Option Nat
  backdropRef : Option Nat
  /-- Tabbable element ids inside the trap container (static DOM property). -/
  dialogTabbables : List Nat
  rootHidden : Bool
  rootOpenAttr : Bool
  rootAriaModal : Bool
  dialogRole : Bool
  mainPresent : Bool
  mainAriaHidden : Option String
  /-- The `[data-gallery-grid]` container, when present in the document. -/
  gridDom : Option Elem
  items : List Elem
  index : Int
  releaseFocusFn : Option Trap
  lastFocused : Option Nat
  activeElement : Option Nat
  /-- Ids of trap keydown listeners currently installed on the document. -/
  docHandlers : List Nat
  /-- Fresh-id counter for trap listeners. -/
  trapCounter : Nat
  imgSrc : Option String
  imgAlt : Option String
  captionText : Option String
  counterText : Option String
  liveText : String
  livePolite : String
deriving DecidableEq

/-- JS array read `items[i]` with a possibly out-of-range or negative index:
`undefined` (`none`) outside `[0, length)`. -/
def listGetJS (l : List Elem) (i : Int) : Option Elem :=
  if i < 0 then none else l[i.toNat]?

/-- `utils.js` `liveRegion` / `a11y.js` `announce`: the live node's
textContent ends up as the message and its `aria-live` as the politeness. -/
def announceMsg (msg pol : String) (s : Sys) : Sys :=
  { s with liveText := msg, livePolite := pol }

/-- `a11y.js` `rememberFocus`. -/
def rememberFocus (s : Sys) : Sys :=
  { s with lastFocused := s.activeElement }

/-- `a11y.js` `restoreFocus`: focuses `lastFocused` when present, otherwise
leaves focus alone. -/
def restoreFocus (s : Sys) : Sys :=
  { s with activeElement := s.lastFocused.or s.activeElement }

/-- `lightbox.js` `setAriaHiddenForBackground`. -/
def setAriaHiddenForBackground (hidden : Bool) (s : Sys) : Sys :=
  if s.mainPresent then
    { s with mainAriaHidden := some (if hidden then "true" else "false") }
  else s

/-- `lightbox.js` `hydrateItems`. -/
def hydrateItems (s : Sys) : Sys :=
  { s with items := match s.gridDom with
                    | some g => lightboxItems g
                    | none => [] }

/-- `lightbox.js` `updateUI`: resolve the active card's source, alt and
caption, update image/caption/counter targets when present, and announce. -/
def updateUI (s : Sys) : Sys :=
  match listGetJS s.items s.index with
  | none => s
  | some card =>
    let src := resolveSrc card
    let caption := resolveCaption card
    let s1 := if s.imgRef.isSome && truthy src then
                { s with imgSrc := src, imgAlt := some (resolveAlt card) }
              else s
    let s2 := if s1.captionRef.isSome then { s1 with captionText := some caption } else s1
    let counter := toString (s.index + 1) ++ " / " ++ toString s.items.length
    let s3 := if s2.counterRef.isSome then { s2 with counterText := some counter } else s2
    announceMsg
      ("Image " ++ toString (s.index + 1) ++ " of " ++ toString s.items.length
        ++ (if caption ≠ "" then ", " ++ caption else ""))
      "polite" s3

/-- `utils.js` `trapFocus(container, initial)` called from `open` as
`trapFocus(refs.dialog || refs.root, refs.closeBtn || refs.dialog)`:
records the currently focused element, installs a fresh document keydown
listener, moves focus (microtask) to the initial element, the first
tabbable, or the container, and returns the release handle. -/
def trapFocusInstall (s : Sys) : Sys × Trap :=
  let t : Trap := { id := s.trapCounter, prevActive := s.activeElement }
  let container := s.dialogRef.or s.rootRef
  let target := (s.closeBtnRef.or s.dialogRef).or (s.dialogTabbables.head?.or container)
  ({ s with docHandlers := s.docHandlers ++ [t.id],
            trapCounter := s.trapCounter + 1,
            activeElement := target.or s.activeElement }, t)

/-- Calling a trap's release handle: removes its keydown listener and
refocuses the element recorded at install time. -/
def releaseTrap (t : Trap) (s : Sys) : Sys :=
  { s with docHandlers := s.docHandlers.erase t.id,
           activeElement := t.prevActive.or s.activeElement }

/-- `lightbox.js` `open(index)`. -/
def openViewer (idx : Int) (s : Sys) : Sys :=
  match s.rootRef with
  | none => s
  | some _ =>
    let s := if s.items.isEmpty then hydrateItems s else s
    if s.items.isEmpty then s
    else
      let s := rememberFocus s
      let s := { s with index := idx }
      let s := { s with rootHidden := false, rootOpenAttr := true, rootAriaModal := true }
      let s := if s.dialogRef.isSome then { s with dialogRole := true } else s
      let s := updateUI s
      -- preloadNeighbors: fire-and-forget image fetches, no state effect
      let s := setAriaHiddenForBackground true s
      let p := trapFocusInstall s
      let s := { p.1 with releaseFocusFn := some p.2 }
      announceMsg "Image viewer opened" "polite" s

/-- `lightbox.js` `close()`. -/
def close (s : Sys) : Sys :=
  match s.rootRef with
  | none => s
  | some _ =>
    let s := { s with rootHidden := true, rootOpenAttr := false, rootAriaModal := false }
    let s := setAriaHiddenForBackground false s
    let s := match s.releaseFocusFn with
             | some t => releaseTrap t s
             | none => s
    let s := { s with releaseFocusFn := none }
    let s := restoreFocus s
    announceMsg "Image viewer closed" "polite" s

/-- `lightbox.js` `next()`. -/
def nextOp (s : Sys) : Sys :=
  if s.items.isEmpty then s
  else updateUI { s with index := nextIndex s.index s.items.length }

/-- `lightbox.js` `prev()`. -/
def prevOp (s : Sys) : Sys :=
  if s.items.isEmpty then s
  else updateUI { s with index := prevIndex s.index s.items.length }

/-- `lightbox.js` `onBackdropClick`: close only when the click target is
identically the root or the backdrop element. -/
def onBackdropClick (target : Nat) (s : Sys) : Sys :=
  if s.rootRef = some target ∨ s.backdropRef = some target then close s else s

/-! ### Concrete test fixtures -/

/-- A typical gallery card: `figure[data-gallery-item]` wrapping a link to
the full image around a thumbnail `img`. -/
def cardA : Elem :=
  .mk "figure" [("data-gallery-item", "")] [] ""
    [.mk "a" [("href", "full-a.jpg")] [] ""
      [.mk "img" [("src", "thumb-a.jpg"), ("alt", "A")] [] "" []]]

/-- A card with a `data-caption` attribute and a `data-full` attribute. -/
def cardB : Elem :=
  .mk "figure" [("data-gallery-item", ""), ("data-full", "full-b.jpg"),
                ("data-caption", "Sunset")] [] ""
    [.mk "img" [("src", "thumb-b.jpg"), ("alt", "B")] [] "" []]

/-- A third plain card. -/
def cardC : Elem :=
  .mk "figure" [("data-gallery-item", "")] [] ""
    [.mk "img" [("data-full", "full-c.jpg"), ("src", "thumb-c.jpg")] [] "" []]

/-- Grid on which the two hydrations disagree: the first child matches only
`.gallery__item`, the second only `[data-gallery-item]`. -/
def gridMix : Elem :=
  .mk "div" [("data-gallery-grid", "")] [] ""
    [.mk "div" [] ["gallery__item"] "" [],
     .mk "div" [("data-gallery-item", "")] [] "" []]

/-- The second child of `gridMix` (the card the gallery controller sees). -/
def cardMix : Elem := .mk "div" [("data-gallery-item", "")] [] "" []

/-- Card with no full-source attribute anywhere: only a nested `img[src]`
and an enclosing link `href`. -/
def cardSrcOnly : Elem :=
  .mk "figure" [] [] ""
    [.mk "a" [("href", "full.jpg")] [] ""
      [.mk "img" [("src", "thumb.jpg")] [] "" []]]

/-- Base system state: all references resolved, viewer closed, no items. -/
def s0 : Sys where
  rootRef := some 0
  dialogRef := some 1
  closeBtnRef := some 2
  imgRef := some 3
  captionRef := some 4
  counterRef := some 5
  prevBtnRef := some 6
  nextBtnRef := some 7
  backdropRef := some 8
  dialogTabbables := [2, 6, 7]
  rootHidden := true
  rootOpenAttr := false
  rootAriaModal := false
  dialogRole := false
  mainPresent := true
  mainAriaHidden := none
  gridDom := none
  items := []
  index := 0
  releaseFocusFn := none
  lastFocused := none
  activeElement := some 42
  docHandlers := []
  trapCounter := 0
  imgSrc := none
  imgAlt := none
  captionText := none
  counterText := none
  liveText := ""
  livePolite := "polite"

/-- Base state with a three-card snapshot. -/
def s3 : Sys := { s0 with items := [cardA, cardB, cardC] }

/-- Base state with a single-card snapshot. -/
def s1 : Sys := { s0 with items := [cardA] }

/-- The state reached by opening the three-card viewer at index 0. -/
def sOpen : Sys := openViewer 0 s3

/-- A grid whose only card carries `[data-gallery-item]` (the common case
where both hydrations agree). -/
def gridOK : Elem := .mk "div" [("data-gallery-grid", "")] [] "" [cardMix]

/-! ### Helper lemmas -/

theorem updateUI_pres (s : Sys) :
    (updateUI s).items = s.items ∧ (updateUI s).index = s.index ∧
    (updateUI s).rootRef = s.rootRef ∧ (updateUI s).dialogRef = s.dialogRef ∧
    (updateUI s).closeBtnRef = s.closeBtnRef ∧ (updateUI s).backdropRef = s.backdropRef ∧
    (updateUI s).dialogTabbables = s.dialogTabbables ∧
    (updateUI s).rootHidden = s.rootHidden ∧ (updateUI s).rootOpenAttr = s.rootOpenAttr ∧
    (updateUI s).rootAriaModal = s.rootAriaModal ∧
    (updateUI s).mainPresent = s.mainPresent ∧ (updateUI s).mainAriaHidden = s.mainAriaHidden ∧
    (updateUI s).gridDom = s.gridDom ∧
    (updateUI s).releaseFocusFn = s.releaseFocusFn ∧ (updateUI s).lastFocused = s.lastFocused ∧
    (updateUI s).activeElement = s.activeElement ∧ (updateUI s).docHandlers = s.docHandlers ∧
    (updateUI s).trapCounter = s.trapCounter := by
  unfold updateUI
  cases listGetJS s.items s.index
  · simp
  · dsimp only
    split_ifs <;> simp [announceMsg]

theorem setAria_eq (b : Bool) (s : Sys) :
    setAriaHiddenForBackground b s =
      { s with mainAriaHidden :=
          if s.mainPresent then some (if b then "true" else "false")
          else s.mainAriaHidden } := by
  unfold setAriaHiddenForBackground
  split_ifs <;> rfl

theorem openViewer_fields (s : Sys) (k : Int) (r : Nat) (hroot : s.rootRef = some r)
    (hitems : s.items ≠ []) :
    (openViewer k s).rootRef = some r ∧
    (openViewer k s).items = s.items ∧
    (openViewer k s).index = k ∧
    (openViewer k s).lastFocused = s.activeElement ∧
    (openViewer k s).releaseFocusFn = some ⟨s.trapCounter, s.activeElement⟩ ∧
    (openViewer k s).docHandlers = s.docHandlers ++ [s.trapCounter] ∧
    (openViewer k s).trapCounter = s.trapCounter + 1 ∧
    (openViewer k s).rootHidden = false ∧
    (openViewer k s).rootOpenAttr = true ∧
    (openViewer k s).rootAriaModal = true := by
  have hne : s.items.isEmpty = false := List.isEmpty_eq_false.mpr hitems
  unfold openViewer
  rw [hroot]
  simp only [hne, Bool.false_eq_true, if_false]
  split_ifs <;>
    simp [rememberFocus, setAria_eq, trapFocusInstall, announceMsg, updateUI_pres, hroot]

theorem nextIndex_emod (i n : Int) (h0 : 0 ≤ i) (hn : 0 < n) :
    nextIndex i n = (i + 1) % n := by
  unfold nextIndex
  exact Int.tmod_eq_emod (by omega) (by omega)

theorem prevIndex_emod (i n : Int) (h0 : 0 ≤ i) (hn : 0 < n) :
    prevIndex i n = (i + (n - 1)) % n := by
  unfold prevIndex
  rw [Int.tmod_eq_emod (by omega) (by omega)]
  congr 1
  ring

theorem nextIndex_iterate (n : Int) (hn : 0 < n) :
    ∀ (k : Nat) (i : Int), 0 ≤ i → i < n →
      (fun j => nextIndex j n)^[k] i = (i + k) % n := by
  intro k
  induction k with
  | zero =>
    intro i h0 h1
    simpa using (Int.emod_eq_of_lt h0 h1).symm
  | succ k ih =>
    intro i h0 h1
    rw [Function.iterate_succ_apply]
    rw [nextIndex_emod i n h0 hn,
      ih _ (Int.emod_nonneg _ (by omega)) (Int.emod_lt_of_pos _ hn),
      Int.emod_add_emod]
    congr 1
    push_cast
    ring

theorem prevIndex_iterate (n : Int) (hn : 0 < n) :
    ∀ (k : Nat) (i : Int), 0 ≤ i → i < n →
      (fun j => prevIndex j n)^[k] i = (i + k * (n - 1)) % n := by
  intro k
  induction k with
  | zero =>
    intro i h0 h1
    simpa using (Int.emod_eq_of_lt h0 h1).symm
  | succ k ih =>
    intro i h0 h1
    rw [Function.iterate_succ_apply]
    rw [prevIndex_emod i n h0 hn,
      ih _ (Int.emod_nonneg _ (by omega)) (Int.emod_lt_of_pos _ hn),
      Int.emod_add_emod]
    congr 1
    push_cast
    ring

theorem nextIndex_cycle (n : Int) (hn : 0 < n) (i : Int) (h0 : 0 ≤ i) (h1 : i < n) :
    (fun j => nextIndex j n)^[n.toNat] i = i := by
  rw [nextIndex_iterate n hn n.toNat i h0 h1, Int.toNat_of_nonneg (by omega),
    show i + n = i + n * 1 by ring, Int.add_mul_emod_self_left]
  exact Int.emod_eq_of_lt h0 h1

theorem prevIndex_cycle (n : Int) (hn : 0 < n) (i : Int) (h0 : 0 ≤ i) (h1 : i < n) :
    (fun j => prevIndex j n)^[n.toNat] i = i := by
  rw [prevIndex_iterate n hn n.toNat i h0 h1, Int.toNat_of_nonneg (by omega),
    Int.add_mul_emod_self_left]
  exact Int.emod_eq_of_lt h0 h1

theorem nextOp_sys (s : Sys) (h : s.items ≠ []) :
    (nextOp s).items = s.items ∧
    (nextOp s).index = nextIndex s.index s.items.length := by
  unfold nextOp
  simp only [List.isEmpty_eq_false.mpr h, Bool.false_eq_true, if_false]
  exact ⟨(updateUI_pres _).1, (updateUI_pres _).2.1⟩

theorem prevOp_sys (s : Sys) (h : s.items ≠ []) :
    (prevOp s).items = s.items ∧
    (prevOp s).index = prevIndex s.index s.items.length := by
  unfold prevOp
  simp only [List.isEmpty_eq_false.mpr h, Bool.false_eq_true, if_false]
  exact ⟨(updateUI_pres _).1, (updateUI_pres _).2.1⟩

theorem nextOp_iterate (s : Sys) (h : s.items ≠ []) : ∀ k : Nat,
    (nextOp^[k] s).items = s.items ∧
    (nextOp^[k] s).index = (fun j => nextIndex j (s.items.length : Int))^[k] s.index := by
  intro k
  induction k with
  | zero => exact ⟨rfl, rfl⟩
  | succ k ih =>
    obtain ⟨hit, hix⟩ := ih
    rw [Function.iterate_succ_apply', Function.iterate_succ_apply']
    have hne : (nextOp^[k] s).items ≠ [] := by rw [hit]; exact h
    obtain ⟨a1, a2⟩ := nextOp_sys _ hne
    exact ⟨by rw [a1, hit], by rw [a2, hit, hix]⟩

theorem prevOp_iterate (s : Sys) (h : s.items ≠ []) : ∀ k : Nat,
    (prevOp^[k] s).items = s.items ∧
    (prevOp^[k] s).index = (fun j => prevIndex j (s.items.length : Int))^[k] s.index := by
  intro k
  induction k with
  | zero => exact ⟨rfl, rfl⟩
  | succ k ih =>
    obtain ⟨hit, hix⟩ := ih
    rw [Function.iterate_succ_apply', Function.iterate_succ_apply']
    have hne : (prevOp^[k] s).items ≠ [] := by rw [hit]; exact h
    obtain ⟨a1, a2⟩ := prevOp_sys _ hne
    exact ⟨by rw [a1, hit], by rw [a2, hit, hix]⟩

theorem close_markers (s : Sys) (r : Nat) (hroot : s.rootRef = some r) :
    (close s).rootHidden = true ∧ (close s).rootOpenAttr = false ∧
    (close s).rootAriaModal = false ∧ (close s).releaseFocusFn = none ∧
    (close s).mainAriaHidden =
      (if s.mainPresent then some "false" else s.mainAriaHidden) := by
  unfold close
  rw [hroot]
  cases s.releaseFocusFn <;>
    simp [setAria_eq, releaseTrap, restoreFocus, announceMsg]

theorem close_restores_lastFocused (s : Sys) (r u : Nat) (hroot : s.rootRef = some r)
    (hl : s.lastFocused = some u) : (close s).activeElement = some u := by
  unfold close
  rw [hroot]
  cases s.releaseFocusFn <;>
    simp [setAria_eq, releaseTrap, restoreFocus, announceMsg, hl]

theorem close_docHandlers (s : Sys) (r : Nat) (t : Trap) (hroot : s.rootRef = some r)
    (hf : s.releaseFocusFn = some t) :
    (close s).docHandlers = s.docHandlers.erase t.id := by
  unfold close
  rw [hroot]
  simp [hf, setAria_eq, releaseTrap, restoreFocus, announceMsg]

/-! ### Claim theorems -/

/-- C5: `close()` is idempotent: a second `close()` reproduces exactly the
state of the first (hidden marker set, open and aria-modal markers absent,
background aria-hidden cleared), and `close()` from the Closed state is a
total, error-free operation (it is a plain function on states).  The
statement is a full state equality, so it covers every marker the claim
names. -/
theorem close_idempotent (s : Sys) : close (close s) = close s := by
  obtain ⟨r0, d0, cb, im, cp, co, pb, nb, bd, dt, rh, ro, ra, dr, mp, mah, gd,
    it, ix, rf, lf, ae, dh, tc, isr, ial, ctx, cox, ltx, lpx⟩ := s
  cases r0 with
  | none => simp [close]
  | some r =>
    cases rf with
    | none =>
      cases lf <;> cases mp <;>
        simp [close, setAriaHiddenForBackground, releaseTrap, restoreFocus, announceMsg]
    | some t =>
      obtain ⟨tid, tpa⟩ := t
      cases tpa <;> cases lf <;> cases mp <;>
        simp [close, setAriaHiddenForBackground, releaseTrap, restoreFocus, announceMsg]

/-- C7: with an empty item snapshot whose lazy re-hydration still yields no
items, `open(index)` is the identity on the whole state (so the root stays
in the Closed state), and `next()` / `prev()` are identities as well; all
three are total functions, so no exception is possible. -/
theorem empty_items_noop (s : Sys) (k : Int) (hempty : s.items = [])
    (hhyd : (hydrateItems s).items = []) :
    openViewer k s = s ∧ nextOp s = s ∧ prevOp s = s := by
  refine ⟨?_, ?_, ?_⟩
  · unfold openViewer
    cases hr : s.rootRef with
    | none => rfl
    | some r =>
      have h1 : s.items.isEmpty = true := by simp [hempty]
      have h2 : hydrateItems s = s := by
        unfold hydrateItems at hhyd ⊢
        obtain ⟨r0, d0, cb, im, cp, co, pb, nb, bd, dt, rh, ro, ra, dr, mp, mah, gd,
          it, ix, rf, lf, ae, dh, tc, isr, ial, ctx, cox, ltx, lpx⟩ := s
        simp only at hhyd hempty ⊢
        rw [hhyd, hempty]
      rw [h1]
      simp only [if_true, h2, h1]
  · simp [nextOp, hempty]
  · simp [prevOp, hempty]

/-- C6: with a focused trigger element, `open(k)` then `close()` puts focus
back on that exact element; moreover the controller's own remembered-focus
restore runs after, and takes precedence over, the trap's release-time
restore: whatever the stored trap's `prevActive` is, after `close()` the
focused element is the remembered `lastFocused` one. -/
theorem focus_round_trip (s : Sys) (t r : Nat) (k : Int)
    (hfoc : s.activeElement = some t) (hroot : s.rootRef = some r)
    (hitems : s.items ≠ []) :
    (close (openViewer k s)).activeElement = some t ∧
    (∀ (s2 : Sys) (u r2 : Nat), s2.lastFocused = some u → s2.rootRef = some r2 →
      (close s2).activeElement = some u) := by
  obtain ⟨h1, _, _, h4, _⟩ := openViewer_fields s k r hroot hitems
  exact ⟨close_restores_lastFocused _ r t h1 (h4.trans hfoc),
    fun s2 u r2 hl hr => close_restores_lastFocused s2 r2 u hr hl⟩

/-- C9: a click dispatched on the lightbox root closes the viewer (hidden
marker set, open marker cleared) if and only if its target is identically
the root or the backdrop element; for any other target — in particular any
element inside the dialog, which is neither the root nor the backdrop —
the whole state is unchanged (strict target identity, not containment). -/
theorem backdrop_click_strict (s : Sys) (t r : Nat)
    (hroot : s.rootRef = some r) (hopen : s.rootOpenAttr = true) :
    (((onBackdropClick t s).rootOpenAttr = false ∧
      (onBackdropClick t s).rootHidden = true) ↔
      (t = r ∨ s.backdropRef = some t)) ∧
    (t ≠ r → s.backdropRef ≠ some t → onBackdropClick t s = s) := by
  constructor
  · by_cases hc : t = r ∨ s.backdropRef = some t
    · have heq : onBackdropClick t s = close s := by
        unfold onBackdropClick
        rw [if_pos]
        rcases hc with h | h
        · exact Or.inl (by rw [hroot, h])
        · exact Or.inr h
      rw [heq]
      obtain ⟨m1, m2, _⟩ := close_markers s r hroot
      exact iff_of_true ⟨m2, m1⟩ hc
    · have heq : onBackdropClick t s = s := by
        unfold onBackdropClick
        rw [if_neg]
        rintro (h | h)
        · rw [hroot] at h
          exact hc (Or.inl (Option.some.inj h).symm)
        · exact hc (Or.inr h)
      rw [heq]
      apply iff_of_false
      · rintro ⟨h1, _⟩
        rw [hopen] at h1
        exact absurd h1 (by simp)
      · exact hc
  · intro hne hnb
    unfold onBackdropClick
    rw [if_neg]
    rintro (h | h)
    · rw [hroot] at h
      exact hne (Option.some.inj h).symm
    · exact hnb h

/-- C10: calling `open` while a focus-trap release handle is stored
overwrites `state.releaseFocusFn` with the new trap's handle without
invoking the old one (the old trap's document keydown listener is still
installed after `open`), and a subsequent `close` releases only the most
recently stored handle, leaving the earlier trap's listener on the
document. -/
theorem stale_trap_leak (s : Sys) (k : Int) (r : Nat) (tr : Trap)
    (_hf : s.releaseFocusFn = some tr) (hmem : tr.id ∈ s.docHandlers)
    (hfresh : tr.id ≠ s.trapCounter) (hroot : s.rootRef = some r)
    (hitems : s.items ≠ []) :
    (openViewer k s).releaseFocusFn ≠ some tr ∧
    tr.id ∈ (openViewer k s).docHandlers ∧
    (close (openViewer k s)).releaseFocusFn = none ∧
    tr.id ∈ (close (openViewer k s)).docHandlers := by
  obtain ⟨h1, _, _, _, h5, h6, _⟩ := openViewer_fields s k r hroot hitems
  refine ⟨?_, ?_, ?_, ?_⟩
  · rw [h5]
    intro he
    exact hfresh (by rw [← Option.some.inj he])
  · rw [h6]
    exact List.mem_append_left _ hmem
  · exact (close_markers (openViewer k s) r h1).2.2.2.1
  · rw [close_docHandlers (openViewer k s) r _ h1 h5, h6]
    exact (List.mem_erase_of_ne hfresh).mpr (List.mem_append_left _ hmem)

/-- C2: for a non-empty snapshot of `n` items and any in-range starting
index, `next()` applied `n` times returns the index to its start, and so
does `prev()`: navigation always wraps circularly via
`(i + 1) % n` / `(i - 1 + n) % n`, with no disabled boundary state. -/
theorem wrap_invariant (s : Sys) (n : Nat) (hn : 0 < n) (hlen : s.items.length = n)
    (h0 : 0 ≤ s.index) (h1 : s.index < (n : Int)) :
    (nextOp^[n] s).index = s.index ∧ (prevOp^[n] s).index = s.index := by
  have hne : s.items ≠ [] := by
    intro he
    rw [he] at hlen
    simp at hlen
    omega
  have hnInt : (0 : Int) < (n : Int) := by exact_mod_cast hn
  constructor
  · rw [(nextOp_iterate s hne n).2]
    simp only [hlen]
    have hc := nextIndex_cycle (n : Int) hnInt s.index h0 h1
    rwa [Int.toNat_natCast] at hc
  · rw [(prevOp_iterate s hne n).2]
    simp only [hlen]
    have hc := prevIndex_cycle (n : Int) hnInt s.index h0 h1
    rwa [Int.toNat_natCast] at hc

/-- C1 (amended): `open(index)` performs NO clamping — it stores the
caller's index unchanged, so the invariant `0 ≤ index < items.length`
holds after `open` only when the supplied index is already in range; the
navigation operations `next()` / `prev()` do keep the index in range. -/
theorem open_index_no_clamp (s : Sys) (k : Int) (r : Nat)
    (hroot : s.rootRef = some r) (hitems : s.items ≠ []) :
    (openViewer k s).index = k ∧
    (0 ≤ s.index → s.index < (s.items.length : Int) →
      (0 ≤ (nextOp s).index ∧ (nextOp s).index < ((nextOp s).items.length : Int)) ∧
      (0 ≤ (prevOp s).index ∧ (prevOp s).index < ((prevOp s).items.length : Int))) := by
  refine ⟨(openViewer_fields s k r hroot hitems).2.2.1, ?_⟩
  intro h0 h1
  have hpos : (0 : Int) < (s.items.length : Int) := by
    have : s.items.length ≠ 0 := fun hz => hitems (List.length_eq_zero.mp hz)
    omega
  obtain ⟨a1, a2⟩ := nextOp_sys s hitems
  obtain ⟨b1, b2⟩ := prevOp_sys s hitems
  rw [a1, a2, b1, b2]
  unfold nextIndex prevIndex
  exact ⟨⟨Int.tmod_nonneg _ (by omega), Int.tmod_lt_of_pos _ hpos⟩,
    ⟨Int.tmod_nonneg _ (by omega), Int.tmod_lt_of_pos _ hpos⟩⟩

/-- C1 counterexample: on a one-item snapshot, `open(2)` stores index 2 —
the out-of-range index is neither clamped into `[0, length-1]` nor
treated as 0, and the invariant `0 ≤ index < items.length` fails. -/
theorem open_clamp_cex :
    (openViewer 2 s1).items.length = 1 ∧
    (openViewer 2 s1).index = 2 ∧
    (openViewer 2 s1).index ≠ 0 ∧
    ¬((openViewer 2 s1).index < ((openViewer 2 s1).items.length : Int)) := by
  decide

/-- C3 (amended): the two hydrations agree — and the gallery's emitted
index selects the same card in the lightbox's snapshot — whenever every
descendant of the grid with class `gallery__item` also carries the
`data-gallery-item` attribute (the selector sets then coincide). -/
theorem hydration_agree (g : Elem)
    (hcov : ∀ e ∈ descendants g, e.hasClass "gallery__item" = true →
      e.hasAttr "data-gallery-item" = true) :
    galleryItems g = lightboxItems g ∧
    ∀ card ∈ galleryItems g,
      (lightboxItems g)[(galleryItems g).indexOf card]? = some card := by
  have heq : galleryItems g = lightboxItems g := by
    unfold galleryItems lightboxItems qsaP
    apply List.filter_congr
    intro e he
    cases hA : e.hasAttr "data-gallery-item"
    · cases hC : e.hasClass "gallery__item"
      · simp [hA, hC]
      · exact absurd (hcov e he hC) (by simp [hA])
    · simp [hA]
  refine ⟨heq, fun card hc => ?_⟩
  rw [← heq]
  exact List.getElem?_indexOf hc

/-- C3 counterexample: on `gridMix` the gallery controller hydrates only
the `[data-gallery-item]` card while the lightbox also picks up the
`.gallery__item`-only card, so the sequences differ and the gallery's
emitted index 0 for its card selects a DIFFERENT card in the lightbox's
snapshot. -/
theorem hydration_mismatch_cex :
    galleryItems gridMix ≠ lightboxItems gridMix ∧
    (lightboxItems gridMix)[(galleryItems gridMix).indexOf cardMix]? ≠ some cardMix := by
  decide

/-- C4 (amended): in `updateUI` source resolution the direct `data-full`
attribute wins over the nested image's `data-full`; but when neither
full-source attribute is truthy, the nested image's plain `src` is used
BEFORE the enclosing link's href — the href, not the plain image source,
is the last resort. -/
theorem src_fallback_order (card : Elem) :
    (truthy (card.getAttribute "data-full") = true →
      resolveSrc card = card.getAttribute "data-full") ∧
    (truthy (card.getAttribute "data-full") = false →
      truthy ((qsP card (fun e => e.tag = "img")).bind
        (fun i => i.getAttribute "data-full")) = false →
      truthy ((qsP card (fun e => e.tag = "img")).bind
        (fun i => i.getAttribute "src")) = true →
      resolveSrc card = (qsP card (fun e => e.tag = "img")).bind
        (fun i => i.getAttribute "src")) := by
  constructor
  · intro h
    simp only [resolveSrc, jsOr, h, if_true]
  · intro h1 h2 h3
    simp only [resolveSrc, jsOr, h1, h2, h3, Bool.false_eq_true, if_false, if_true]

/-- C4 counterexample: a card with only a nested `img[src]` and an
enclosing link href resolves to the image's `src`, not the href — the
plain nested image source is NOT "used only after the link href", it is
tried before it. -/
theorem src_order_cex :
    resolveSrc cardSrcOnly = some "thumb.jpg" ∧
    resolveSrcSpecOrder cardSrcOnly = some "full.jpg" ∧
    resolveSrc cardSrcOnly ≠ resolveSrcSpecOrder cardSrcOnly := by
  decide

/-- C8: rendering the item at the current index announces, politely,
exactly `"Image {index+1} of {length}"` when the resolved caption is
empty (no trailing comma or caption fragment), and exactly
`"Image {index+1} of {length}, {caption}"` when it is non-empty. -/
theorem caption_announcement (s : Sys) (card : Elem)
    (h : listGetJS s.items s.index = some card) :
    (updateUI s).livePolite = "polite" ∧
    (resolveCaption card = "" →
      (updateUI s).liveText =
        "Image " ++ toString (s.index + 1) ++ " of " ++ toString s.items.length) ∧
    (resolveCaption card ≠ "" →
      (updateUI s).liveText =
        "Image " ++ toString (s.index + 1) ++ " of " ++ toString s.items.length
          ++ ", " ++ resolveCaption card) := by
  unfold updateUI
  rw [h]
  refine ⟨?_, ?_, ?_⟩
  · dsimp only
    split_ifs <;> simp [announceMsg]
  · intro hc
    dsimp only
    split_ifs <;> simp_all [announceMsg]
  · intro hc
    dsimp only
    split_ifs <;> simp_all [announceMsg, String.append_assoc]

/-! ### Witnesses: the claim theorems applied at concrete inputs -/

theorem open_index_no_clamp_witness :
    s3.rootRef = some 0 ∧ s3.items ≠ [] ∧
    (openViewer 7 s3).index = 7 ∧
    (0 ≤ (nextOp s3).index ∧ (nextOp s3).index < ((nextOp s3).items.length : Int)) :=
  ⟨by decide, by decide, (open_index_no_clamp s3 7 0 (by decide) (by decide)).1,
    ((open_index_no_clamp s3 7 0 (by decide) (by decide)).2 (by decide) (by decide)).1⟩

theorem wrap_invariant_witness :
    0 < 3 ∧ s3.items.length = 3 ∧ 0 ≤ s3.index ∧ s3.index < (3 : Int) ∧
    ((nextOp^[3] s3).index = s3.index ∧ (prevOp^[3] s3).index = s3.index) :=
  ⟨by decide, by decide, by decide, by decide,
    wrap_invariant s3 3 (by decide) (by decide) (by decide) (by decide)⟩

theorem hydration_agree_witness :
    (∀ e ∈ descendants gridOK, e.hasClass "gallery__item" = true →
      e.hasAttr "data-gallery-item" = true) ∧
    galleryItems gridOK = lightboxItems gridOK :=
  ⟨by decide, (hydration_agree gridOK (by decide)).1⟩

theorem src_fallback_order_witness :
    truthy (cardB.getAttribute "data-full") = true ∧
    resolveSrc cardB = cardB.getAttribute "data-full" :=
  ⟨by decide, (src_fallback_order cardB).1 (by decide)⟩

theorem focus_round_trip_witness :
    s3.activeElement = some 42 ∧ s3.rootRef = some 0 ∧ s3.items ≠ [] ∧
    (close (openViewer 1 s3)).activeElement = some 42 :=
  ⟨by decide, by decide, by decide,
    (focus_round_trip s3 42 0 1 (by decide) (by decide) (by decide)).1⟩

theorem empty_items_noop_witness :
    s0.items = [] ∧ (hydrateItems s0).items = [] ∧
    (openViewer 0 s0 = s0 ∧ nextOp s0 = s0 ∧ prevOp s0 = s0) :=
  ⟨by decide, by decide, empty_items_noop s0 0 (by decide) (by decide)⟩

theorem caption_announcement_witness :
    listGetJS s1.items s1.index = some cardA ∧
    (updateUI s1).livePolite = "polite" ∧
    (updateUI s1).liveText = "Image 1 of 1" := by
  refine ⟨by decide, (caption_announcement s1 cardA (by decide)).1, ?_⟩
  have h := (caption_announcement s1 cardA (by decide)).2.1 (by decide)
  rw [h]
  decide

theorem backdrop_click_strict_witness :
    sOpen.rootRef = some 0 ∧ sOpen.rootOpenAttr = true ∧
    onBackdropClick 9 sOpen = sOpen :=
  ⟨by decide, by decide,
    (backdrop_click_strict sOpen 9 0 (by decide) (by decide)).2 (by decide) (by decide)⟩

theorem stale_trap_leak_witness :
    sOpen.releaseFocusFn = some ⟨0, some 42⟩ ∧ (0 : Nat) ∈ sOpen.docHandlers ∧
    (0 : Nat) ≠ sOpen.trapCounter ∧
    (0 : Nat) ∈ (close (openViewer 2 sOpen)).docHandlers :=
  ⟨by decide, by decide, by decide,
    (stale_trap_leak sOpen 2 0 ⟨0, some 42⟩ (by decide) (by decide) (by decide)
      (by decide) (by decide)).2.2.2⟩

end Webdev
